import Mathlib

/-!
Shallow embedding of `src/src/energy/model/li-ion-battery-model.cc`
(class `ns3::LiIonBatteryModel`).

Modelling conventions:
* `double` is modelled as `ℚ`; `ns3::Time` as `ℚ` seconds.
* `std::exp` is an external libm function, so every definition that the
  code routes through it is parametric in an oracle `expf : ℚ → ℚ`
  standing for the exponential.  Theorems quantified over `expf` hold in
  particular for the real exponential; concrete counterexamples and
  witnesses are evaluated at the oracle `expOne`, and their inputs are
  chosen so that every oracle call is multiplied by zero or cancels
  against an identical call, making the computed values independent of
  the oracle.
* A C++ `std::vector` read out of range (undefined behaviour) is
  modelled by `List.getD` with default `0`.
* The external scheduler (`ns3::Simulator`) is modelled by passing the
  current time, the summed device current (`CalculateTotalCurrent`) and
  the `Simulator::IsFinished` flag as arguments, and by reporting the
  cancel / notify / reschedule effects of an update as booleans.
-/

/-- The mutable state of one `ns3::LiIonBatteryModel` object: every
`m_*` field of the class that the energy engine reads or writes. -/
structure BatteryState where
  remainingEnergyJ : ℚ
  initialEnergyJ : ℚ
  supplyVoltageV : ℚ
  lowBatteryTh : ℚ
  minVoltTh : ℚ
  lastUpdateTime : ℚ
  energyUpdateInterval : ℚ
  drainedCapacity : ℚ
  lastUpdateAlpha : ℚ
  previousLoad : ℚ
  lastSampleTime : ℚ
  timeStamps : List ℚ
  load : List ℚ
  beta : ℚ
  eFull : ℚ
  eNom : ℚ
  eExp : ℚ
  qRated : ℚ
  qNom : ℚ
  qExp : ℚ
  internalResistance : ℚ
  typCurrent : ℚ
deriving DecidableEq

/-- Embedding of `LiIonBatteryModel::RvModelAFunction` (li-ion-battery-model.cc,
lines 402-419): the per-segment contribution of the Rakhmatov-Vrudhula
discharge model, a truncated 10-term exponential series over times
converted to minutes. -/
def RvModelAFunction (expf : ℚ → ℚ) (t sk sk_1 beta : ℚ) : ℚ :=
  let firstDelta := (t - sk) / 60
  let secondDelta := (t - sk_1) / 60
  let delta := (sk - sk_1) / 60
  let sum := Finset.sum (Finset.Icc 1 10) fun m : ℕ =>
    (expf (-(beta * beta * (m : ℚ) * (m : ℚ)) * firstDelta)
        - expf (-(beta * beta * (m : ℚ) * (m : ℚ)) * secondDelta))
      / (beta * beta * (m : ℚ) * (m : ℚ))
  delta + 2 * sum

/-- The load-history recording phase of `LiIonBatteryModel::Discharge`
(lines 361-377): a changed load appends one load entry and one
timestamp; an unchanged load overwrites the last (open) timestamp in
place; `m_lastSampleTime` is set to `t` in both cases. -/
def dischargeRecord (load t : ℚ) (s : BatteryState) : BatteryState :=
  if load ≠ s.previousLoad then
    { s with
        load := s.load ++ [load]
        previousLoad := load
        timeStamps := s.timeStamps.set (s.timeStamps.length - 1) s.lastSampleTime ++ [t]
        lastSampleTime := t }
  else
    { s with
        timeStamps :=
          if s.timeStamps = [] then s.timeStamps
          else s.timeStamps.set (s.timeStamps.length - 1) t
        lastSampleTime := t }

/-- The alpha-computation phase of `LiIonBatteryModel::Discharge`
(lines 379-399): with a single timestamp it reads `m_load[0]` (an
out-of-range read when the load vector is empty, modelled as `0`);
otherwise it sums `m_load[i-1] * RvModelAFunction (t, ts[i], ts[i-1])`
for `i = 1 .. size-1`, reindexed here to `i = 0 .. size-2`. -/
def calculatedAlpha (expf : ℚ → ℚ) (t : ℚ) (s : BatteryState) : ℚ :=
  if s.timeStamps.length = 1 then
    s.load.getD 0 0 * RvModelAFunction expf t t 0 s.beta
  else
    Finset.sum (Finset.range (s.timeStamps.length - 1)) fun i =>
      s.load.getD i 0 *
        RvModelAFunction expf t (s.timeStamps.getD (i + 1) 0) (s.timeStamps.getD i 0) s.beta

/-- Embedding of `LiIonBatteryModel::Discharge` (lines 356-400): records the load
sample, then returns the recomputed total alpha at time `t`. -/
def Discharge (expf : ℚ → ℚ) (load t : ℚ) (s : BatteryState) : BatteryState × ℚ :=
  let s1 := dischargeRecord load t s
  (s1, calculatedAlpha expf t s1)

/-- Embedding of `LiIonBatteryModel::GetVoltage` (lines 328-354): the empirical
multi-zone Li-Ion discharge-curve voltage as a function of the
instantaneous current `i` and the stored drained capacity. -/
def GetVoltage (expf : ℚ → ℚ) (s : BatteryState) (i : ℚ) : ℚ :=
  let it := s.drainedCapacity
  let A := s.eFull - s.eExp
  let B := 3 / s.qExp
  let K := |(s.eFull - s.eNom + A * (expf (-B * s.qNom) - 1)) * (s.qRated - s.qNom) / s.qNom|
  let E0 := s.eFull + K + s.internalResistance * s.typCurrent - A
  let E := E0 - K * s.qRated / (s.qRated - it) + A * expf (-B * it)
  E - s.internalResistance * i

/-- The clamp step of `LiIonBatteryModel::CalculateRemainingEnergy`
(lines 312-320): energy never goes below 0; the drained capacity is
refreshed from alpha only on the non-clamped branch. -/
def clampStep (alpha energyToDecreaseJ : ℚ) (s1 : BatteryState) : BatteryState :=
  if s1.remainingEnergyJ < energyToDecreaseJ then
    { s1 with remainingEnergyJ := 0 }
  else
    { s1 with
        remainingEnergyJ := s1.remainingEnergyJ - energyToDecreaseJ
        drainedCapacity := alpha / 3600 }

/-- Embedding of `LiIonBatteryModel::CalculateRemainingEnergy` (lines 300-326) with
the summed device current passed in for `CalculateTotalCurrent` and the
clock passed in for `Simulator::Now`.  The energy delta uses the
pre-update supply voltage; the voltage is recomputed afterwards from the
(possibly updated) drained capacity; `m_lastUpdateAlpha` is then set to
the new alpha. -/
def CalculateRemainingEnergy (expf : ℚ → ℚ) (totalCurrentA now : ℚ) (s : BatteryState) :
    BatteryState :=
  let s1 := dischargeRecord (totalCurrentA * 1000) now s
  let alpha := calculatedAlpha expf now s1
  let s2 := clampStep alpha ((alpha - s1.lastUpdateAlpha) * s1.supplyVoltageV) s1
  { s2 with
      supplyVoltageV := GetVoltage expf s2 totalCurrentA
      lastUpdateAlpha := alpha }

/-- The energy delta computed by `CalculateRemainingEnergy`:
`(alpha(now) - m_lastUpdateAlpha) * m_supplyVoltageV`, with the
pre-update voltage (line 311). -/
def energyDelta (expf : ℚ → ℚ) (totalCurrentA now : ℚ) (s : BatteryState) : ℚ :=
  (calculatedAlpha expf now (dischargeRecord (totalCurrentA * 1000) now s)
      - s.lastUpdateAlpha) * s.supplyVoltageV

/-- The observable outcome of one `UpdateEnergySource` call: the new
state, whether `m_energyUpdateEvent.Cancel ()` ran, whether
`HandleEnergyDrainedEvent`/`NotifyEnergyDrained` fired, and whether a
new periodic update was scheduled. -/
structure UpdateResult where
  state : BatteryState
  cancelled : Bool
  notified : Bool
  scheduled : Bool
deriving DecidableEq

/-- Embedding of `LiIonBatteryModel::UpdateEnergySource` (lines 242-270): a no-op if
the simulation has finished; otherwise cancel the pending event,
recompute the remaining energy, set `m_lastUpdateTime`, notify and stop
if the remaining energy is at/below the low-battery threshold, else
reschedule after the update interval. -/
def UpdateEnergySource (expf : ℚ → ℚ) (finished : Bool) (totalCurrentA now : ℚ)
    (s : BatteryState) : UpdateResult :=
  if finished then
    { state := s, cancelled := false, notified := false, scheduled := false }
  else
    let s1 := { CalculateRemainingEnergy expf totalCurrentA now s with lastUpdateTime := now }
    if s1.remainingEnergyJ ≤ s1.lowBatteryTh * s1.initialEnergyJ then
      { state := s1, cancelled := true, notified := true, scheduled := false }
    else
      { state := s1, cancelled := true, notified := false, scheduled := true }

/-- Embedding of `LiIonBatteryModel::GetRemainingEnergy` (lines 202-209): forces an
update, then returns `m_remainingEnergyJ`. -/
def GetRemainingEnergy (expf : ℚ → ℚ) (finished : Bool) (totalCurrentA now : ℚ)
    (s : BatteryState) : ℚ × BatteryState :=
  let u := UpdateEnergySource expf finished totalCurrentA now s
  (u.state.remainingEnergyJ, u.state)

/-- Embedding of `LiIonBatteryModel::GetEnergyFraction` (lines 211-218). -/
def GetEnergyFraction (expf : ℚ → ℚ) (finished : Bool) (totalCurrentA now : ℚ)
    (s : BatteryState) : ℚ × BatteryState :=
  let u := UpdateEnergySource expf finished totalCurrentA now s
  (u.state.remainingEnergyJ / u.state.initialEnergyJ, u.state)

/-- Embedding of `LiIonBatteryModel::DecreaseRemainingEnergy` (lines 220-232):
subtracts with no clamp, then fires `HandleEnergyDrainedEvent` iff
`m_supplyVoltageV <= m_minVoltTh` (the boolean component).  The caller
must pass `energyJ >= 0` (`NS_ASSERT`). -/
def DecreaseRemainingEnergy (energyJ : ℚ) (s : BatteryState) : BatteryState × Bool :=
  let s1 := { s with remainingEnergyJ := s.remainingEnergyJ - energyJ }
  (s1, decide (s1.supplyVoltageV ≤ s1.minVoltTh))

/-- Embedding of `LiIonBatteryModel::IncreaseRemainingEnergy` (lines 234-240).  The
caller must pass `energyJ >= 0` (`NS_ASSERT`). -/
def IncreaseRemainingEnergy (energyJ : ℚ) (s : BatteryState) : BatteryState :=
  { s with remainingEnergyJ := s.remainingEnergyJ + energyJ }

/-- Notification count along the periodic update chain: each entry is a
(total current, time) pair for one scheduled tick; the chain continues
only while the previous update rescheduled itself, exactly as
`Simulator::Schedule` at lines 267-269 is reached only when the
depletion branch was not taken. -/
def periodicNotifyCount (expf : ℚ → ℚ) : List (ℚ × ℚ) → BatteryState → ℕ
  | [], _ => 0
  | (i, t) :: rest, s =>
    let u := UpdateEnergySource expf false i t s
    (if u.notified then 1 else 0) +
      (if u.scheduled then periodicNotifyCount expf rest u.state else 0)

/-- The load-history invariant stated in the spec:
`loads.length == timestamps.length - 1`, non-decreasing timestamps, and
the bookkeeping fact that the last (open) timestamp equals
`m_lastSampleTime`, established by the constructor (lines 125-134). -/
def LoadHistoryInv (s : BatteryState) : Prop :=
  s.load.length + 1 = s.timeStamps.length ∧
    List.Chain' (· ≤ ·) s.timeStamps ∧
    s.timeStamps.getLast? = some s.lastSampleTime

/-- The state built by the `LiIonBatteryModel` constructor (lines
125-134) together with the attribute defaults of `GetTypeId` (lines
37-123), at construction time 0. -/
def defaultLiIonState : BatteryState where
  remainingEnergyJ := 31752
  initialEnergyJ := 31752
  supplyVoltageV := 4.05
  lowBatteryTh := 0.10
  minVoltTh := 3.3
  lastUpdateTime := 0
  energyUpdateInterval := 1
  drainedCapacity := 0
  lastUpdateAlpha := 0
  previousLoad := -1
  lastSampleTime := 0
  timeStamps := [0]
  load := []
  beta := 0.637
  eFull := 4.05
  eNom := 3.6
  eExp := 3.6
  qRated := 2.45
  qNom := 1.1
  qExp := 1.2
  internalResistance := 0.083
  typCurrent := 2.33

/-- Oracle used to evaluate concrete instances; the inputs of every
concrete theorem below are chosen so that the computed values do not
depend on the oracle. -/
def expOne : ℚ → ℚ := fun _ => 1


/-- Spec-side definition (for the refinement claim C5 only), written
from the spec formula in section 4.2:
A = delta + 2 * sum over m = 1..10 of
[exp(-beta^2 m^2 Delta1) - exp(-beta^2 m^2 Delta2)] / (beta^2 m^2),
with Delta1 = (t - sk)/60, Delta2 = (t - sk_1)/60,
delta = (sk - sk_1)/60. -/
def rvSpecA (expf : ℚ → ℚ) (t sk sk_1 beta : ℚ) : ℚ :=
  let delta1 := (t - sk) / 60
  let delta2 := (t - sk_1) / 60
  let del := (sk - sk_1) / 60
  del + 2 * Finset.sum (Finset.Icc 1 10) fun m : ℕ =>
    (expf (-(beta ^ 2 * (m : ℚ) ^ 2) * delta1) - expf (-(beta ^ 2 * (m : ℚ) ^ 2) * delta2))
      / (beta ^ 2 * (m : ℚ) ^ 2)

/-- Spec-side definition (for the refinement claim C8 only), written
from the spec formulas in section 4.3: A = E_full - E_exp, B = 3/Q_exp,
K = |(E_full - E_nom + A(exp(-B Q_nom) - 1)) (Q_rated - Q_nom) / Q_nom|,
E0 = E_full + K + R_internal I_typ - A,
E = E0 - K Q_rated/(Q_rated - it) + A exp(-B it), V = E - R_internal i,
with it the stored drained capacity. -/
def specCellVoltage (expf : ℚ → ℚ) (s : BatteryState) (i : ℚ) : ℚ :=
  let A := s.eFull - s.eExp
  let B := 3 / s.qExp
  let K := |(s.eFull - s.eNom + A * (expf (-(B * s.qNom)) - 1)) * (s.qRated - s.qNom) / s.qNom|
  let E0 := s.eFull + K + s.internalResistance * s.typCurrent - A
  let E := E0 - K * s.qRated / (s.qRated - s.drainedCapacity)
    + A * expf (-(B * s.drainedCapacity))
  E - s.internalResistance * i

/-- Concrete fixture: a battery with one recorded zero load and
oracle-independent parameters (`eFull = eExp`, so the voltage curve
factor A vanishes, and every recorded load is zero, so every series
term is multiplied by zero): the run of an update from here computes
the same values for every exponential oracle. -/
def zeroLoadState : BatteryState where
  remainingEnergyJ := 10
  initialEnergyJ := 10
  supplyVoltageV := 4
  lowBatteryTh := 0
  minVoltTh := 5
  lastUpdateTime := 0
  energyUpdateInterval := 1
  drainedCapacity := 0
  lastUpdateAlpha := 0
  previousLoad := 0
  lastSampleTime := 0
  timeStamps := [0, 0]
  load := [0]
  beta := 1
  eFull := 4
  eNom := 4
  eExp := 4
  qRated := 2
  qNom := 1
  qExp := 1
  internalResistance := 0
  typCurrent := 1

/-- Concrete fixture: a battery holding a 1000 mA (1 A) load since time
0 with almost no energy left, driving the next update into the clamp
branch.  Under `expOne` the alpha increment at time 60 is exactly
1000 (one minute at load 1000); under the real exponential it is even
larger, so the clamp branch is taken either way. -/
def clampState : BatteryState where
  remainingEnergyJ := 1
  initialEnergyJ := 10
  supplyVoltageV := 1
  lowBatteryTh := 0
  minVoltTh := 0
  lastUpdateTime := 0
  energyUpdateInterval := 1
  drainedCapacity := 0
  lastUpdateAlpha := 0
  previousLoad := 1000
  lastSampleTime := 0
  timeStamps := [0, 0]
  load := [1000]
  beta := 1
  eFull := 4
  eNom := 4
  eExp := 4
  qRated := 2
  qNom := 1
  qExp := 1
  internalResistance := 0
  typCurrent := 1


/-- Concrete fixture: a battery that has drawn a constant 1.2 A
(1200 mA) since time 0, configured so that at time 342 the drained
capacity reaches 1.9 Ah, just below the 2 Ah rated capacity, where the
multi-zone voltage curve term `K * qRated / (qRated - it)` diverges and
the stored terminal voltage becomes negative (-15 V).  Parameters are
chosen oracle-independent where possible (`eFull = eExp`, so the factor
A of both oracle calls in `GetVoltage` is zero) and `beta = 100` makes
every series term of `RvModelAFunction` at most `2/(beta^2 m^2)`, so
under the real exponential the drained capacity stays within
`[1.9, 1.90009]` Ah and the computed voltage within `[-15.02, -15]` V:
the run behaves the same as under `expOne`. -/
def deepDischargeState : BatteryState where
  remainingEnergyJ := 100000
  initialEnergyJ := 100000
  supplyVoltageV := 4
  lowBatteryTh := 0
  minVoltTh := 0
  lastUpdateTime := 0
  energyUpdateInterval := 1
  drainedCapacity := 0
  lastUpdateAlpha := 0
  previousLoad := 1200
  lastSampleTime := 0
  timeStamps := [0, 0]
  load := [1200]
  beta := 100
  eFull := 4
  eNom := 3
  eExp := 4
  qRated := 2
  qNom := 1
  qExp := 1
  internalResistance := 0
  typCurrent := 0

/-! ### Field-preservation lemmas for the recording phase -/

theorem dischargeRecord_remainingEnergyJ (load t : ℚ) (s : BatteryState) :
    (dischargeRecord load t s).remainingEnergyJ = s.remainingEnergyJ := by
  unfold dischargeRecord; split <;> rfl

theorem dischargeRecord_supplyVoltageV (load t : ℚ) (s : BatteryState) :
    (dischargeRecord load t s).supplyVoltageV = s.supplyVoltageV := by
  unfold dischargeRecord; split <;> rfl

theorem dischargeRecord_lastUpdateAlpha (load t : ℚ) (s : BatteryState) :
    (dischargeRecord load t s).lastUpdateAlpha = s.lastUpdateAlpha := by
  unfold dischargeRecord; split <;> rfl

theorem dischargeRecord_drainedCapacity (load t : ℚ) (s : BatteryState) :
    (dischargeRecord load t s).drainedCapacity = s.drainedCapacity := by
  unfold dischargeRecord; split <;> rfl

theorem dischargeRecord_beta (load t : ℚ) (s : BatteryState) :
    (dischargeRecord load t s).beta = s.beta := by
  unfold dischargeRecord; split <;> rfl

theorem dischargeRecord_previousLoad (load t : ℚ) (s : BatteryState) :
    (dischargeRecord load t s).previousLoad = load := by
  unfold dischargeRecord; split
  · rfl
  · rename_i h
    simp only [ne_eq, not_not] at h
    exact h.symm

theorem dischargeRecord_lastSampleTime (load t : ℚ) (s : BatteryState) :
    (dischargeRecord load t s).lastSampleTime = t := by
  unfold dischargeRecord; split <;> rfl

/-! ### Field lemmas for the clamp step and the full recomputation -/

theorem clampStep_remainingEnergyJ_nonneg (alpha d : ℚ) (s1 : BatteryState) :
    0 ≤ (clampStep alpha d s1).remainingEnergyJ := by
  unfold clampStep; split
  · exact le_refl 0
  · rename_i h
    exact sub_nonneg.mpr (le_of_not_lt h)

theorem clampStep_supplyVoltageV (alpha d : ℚ) (s1 : BatteryState) :
    (clampStep alpha d s1).supplyVoltageV = s1.supplyVoltageV := by
  unfold clampStep; split <;> rfl

theorem clampStep_timeStamps (alpha d : ℚ) (s1 : BatteryState) :
    (clampStep alpha d s1).timeStamps = s1.timeStamps := by
  unfold clampStep; split <;> rfl

theorem clampStep_load (alpha d : ℚ) (s1 : BatteryState) :
    (clampStep alpha d s1).load = s1.load := by
  unfold clampStep; split <;> rfl

theorem clampStep_previousLoad (alpha d : ℚ) (s1 : BatteryState) :
    (clampStep alpha d s1).previousLoad = s1.previousLoad := by
  unfold clampStep; split <;> rfl

theorem clampStep_beta (alpha d : ℚ) (s1 : BatteryState) :
    (clampStep alpha d s1).beta = s1.beta := by
  unfold clampStep; split <;> rfl

theorem clampStep_lowBatteryTh (alpha d : ℚ) (s1 : BatteryState) :
    (clampStep alpha d s1).lowBatteryTh = s1.lowBatteryTh := by
  unfold clampStep; split <;> rfl

theorem clampStep_initialEnergyJ (alpha d : ℚ) (s1 : BatteryState) :
    (clampStep alpha d s1).initialEnergyJ = s1.initialEnergyJ := by
  unfold clampStep; split <;> rfl

/-- The energy delta computed inside `CalculateRemainingEnergy` from the
post-recording state equals `energyDelta` of the pre-call state, because
the recording phase touches neither `m_lastUpdateAlpha` nor
`m_supplyVoltageV`. -/
theorem energyToDecrease_eq (expf : ℚ → ℚ) (totalCurrentA now : ℚ) (s : BatteryState) :
    (calculatedAlpha expf now (dischargeRecord (totalCurrentA * 1000) now s)
        - (dischargeRecord (totalCurrentA * 1000) now s).lastUpdateAlpha)
      * (dischargeRecord (totalCurrentA * 1000) now s).supplyVoltageV
    = energyDelta expf totalCurrentA now s := by
  unfold energyDelta
  rw [dischargeRecord_lastUpdateAlpha, dischargeRecord_supplyVoltageV]

theorem CalculateRemainingEnergy_remainingEnergyJ (expf : ℚ → ℚ) (totalCurrentA now : ℚ)
    (s : BatteryState) :
    (CalculateRemainingEnergy expf totalCurrentA now s).remainingEnergyJ =
      (clampStep (calculatedAlpha expf now (dischargeRecord (totalCurrentA * 1000) now s))
        (energyDelta expf totalCurrentA now s)
        (dischargeRecord (totalCurrentA * 1000) now s)).remainingEnergyJ := by
  unfold CalculateRemainingEnergy
  simp only [energyToDecrease_eq]

theorem CalculateRemainingEnergy_remainingEnergyJ_nonneg (expf : ℚ → ℚ)
    (totalCurrentA now : ℚ) (s : BatteryState) :
    0 ≤ (CalculateRemainingEnergy expf totalCurrentA now s).remainingEnergyJ := by
  rw [CalculateRemainingEnergy_remainingEnergyJ]
  exact clampStep_remainingEnergyJ_nonneg _ _ _

theorem CalculateRemainingEnergy_lastUpdateAlpha (expf : ℚ → ℚ) (totalCurrentA now : ℚ)
    (s : BatteryState) :
    (CalculateRemainingEnergy expf totalCurrentA now s).lastUpdateAlpha =
      calculatedAlpha expf now (dischargeRecord (totalCurrentA * 1000) now s) := rfl

theorem CalculateRemainingEnergy_drainedCapacity (expf : ℚ → ℚ) (totalCurrentA now : ℚ)
    (s : BatteryState) :
    (CalculateRemainingEnergy expf totalCurrentA now s).drainedCapacity =
      (clampStep (calculatedAlpha expf now (dischargeRecord (totalCurrentA * 1000) now s))
        (energyDelta expf totalCurrentA now s)
        (dischargeRecord (totalCurrentA * 1000) now s)).drainedCapacity := by
  unfold CalculateRemainingEnergy
  simp only [energyToDecrease_eq]

theorem CalculateRemainingEnergy_supplyVoltageV (expf : ℚ → ℚ) (totalCurrentA now : ℚ)
    (s : BatteryState) :
    (CalculateRemainingEnergy expf totalCurrentA now s).supplyVoltageV =
      GetVoltage expf
        (clampStep (calculatedAlpha expf now (dischargeRecord (totalCurrentA * 1000) now s))
          (energyDelta expf totalCurrentA now s)
          (dischargeRecord (totalCurrentA * 1000) now s)) totalCurrentA := by
  unfold CalculateRemainingEnergy
  simp only [energyToDecrease_eq]

theorem CalculateRemainingEnergy_timeStamps (expf : ℚ → ℚ) (totalCurrentA now : ℚ)
    (s : BatteryState) :
    (CalculateRemainingEnergy expf totalCurrentA now s).timeStamps =
      (dischargeRecord (totalCurrentA * 1000) now s).timeStamps :=
  clampStep_timeStamps _ _ _

theorem CalculateRemainingEnergy_load (expf : ℚ → ℚ) (totalCurrentA now : ℚ)
    (s : BatteryState) :
    (CalculateRemainingEnergy expf totalCurrentA now s).load =
      (dischargeRecord (totalCurrentA * 1000) now s).load :=
  clampStep_load _ _ _

theorem CalculateRemainingEnergy_previousLoad (expf : ℚ → ℚ) (totalCurrentA now : ℚ)
    (s : BatteryState) :
    (CalculateRemainingEnergy expf totalCurrentA now s).previousLoad = totalCurrentA * 1000 :=
  (clampStep_previousLoad _ _ _).trans (dischargeRecord_previousLoad _ _ _)

theorem CalculateRemainingEnergy_beta (expf : ℚ → ℚ) (totalCurrentA now : ℚ)
    (s : BatteryState) :
    (CalculateRemainingEnergy expf totalCurrentA now s).beta = s.beta :=
  (clampStep_beta _ _ _).trans (dischargeRecord_beta _ _ _)

theorem CalculateRemainingEnergy_lowBatteryTh (expf : ℚ → ℚ) (totalCurrentA now : ℚ)
    (s : BatteryState) :
    (CalculateRemainingEnergy expf totalCurrentA now s).lowBatteryTh = s.lowBatteryTh := by
  have h1 : (CalculateRemainingEnergy expf totalCurrentA now s).lowBatteryTh =
      (dischargeRecord (totalCurrentA * 1000) now s).lowBatteryTh :=
    clampStep_lowBatteryTh _ _ _
  rw [h1]
  unfold dischargeRecord; split <;> rfl

theorem CalculateRemainingEnergy_initialEnergyJ (expf : ℚ → ℚ) (totalCurrentA now : ℚ)
    (s : BatteryState) :
    (CalculateRemainingEnergy expf totalCurrentA now s).initialEnergyJ = s.initialEnergyJ := by
  have h1 : (CalculateRemainingEnergy expf totalCurrentA now s).initialEnergyJ =
      (dischargeRecord (totalCurrentA * 1000) now s).initialEnergyJ :=
    clampStep_initialEnergyJ _ _ _
  rw [h1]
  unfold dischargeRecord; split <;> rfl

/-! ### List helpers for the open-segment bookkeeping -/

theorem list_set_last_eq : ∀ (l : List ℚ) (a : ℚ), l ≠ [] →
    l.set (l.length - 1) a = l.dropLast ++ [a]
  | [], _, h => absurd rfl h
  | [_], _, _ => rfl
  | b :: c :: rest, a, _ => by
    have ih := list_set_last_eq (c :: rest) a (List.cons_ne_nil c rest)
    simp only [List.length_cons, Nat.add_sub_cancel] at ih ⊢
    rw [List.set_cons_succ, ih, List.dropLast_cons₂, List.cons_append]

theorem list_getLast?_set_last (l : List ℚ) (a : ℚ) (h : l ≠ []) :
    (l.set (l.length - 1) a).getLast? = some a := by
  rw [list_set_last_eq l a h]
  exact List.getLast?_concat _

theorem list_set_last_self (l : List ℚ) (a : ℚ) (h : l.getLast? = some a) :
    l.set (l.length - 1) a = l := by
  have hne : l ≠ [] := by
    intro e
    rw [e] at h
    exact Option.noConfusion h
  rw [list_set_last_eq l a hne]
  exact List.dropLast_append_getLast? a h

theorem chain'_le_append_last (l : List ℚ) (x a : ℚ)
    (hc : List.Chain' (· ≤ ·) l) (hl : l.getLast? = some x) (hxa : x ≤ a) :
    List.Chain' (· ≤ ·) (l ++ [a]) := by
  rw [List.chain'_append]
  refine ⟨hc, List.chain'_singleton a, ?_⟩
  intro y hy z hz
  have hy' : y = x := by
    rw [hl] at hy
    exact (Option.mem_some_iff.mp hy).symm
  have hz' : z = a := by
    simp only [List.head?_cons, Option.mem_some_iff] at hz
    exact hz.symm
  rw [hy', hz']
  exact hxa

theorem chain'_dropLast_concat (l : List ℚ) (x a : ℚ)
    (hc : List.Chain' (· ≤ ·) l) (hl : l.getLast? = some x) (hxa : x ≤ a) :
    List.Chain' (· ≤ ·) (l.dropLast ++ [a]) := by
  have hsplit : l.dropLast ++ [x] = l := List.dropLast_append_getLast? x hl
  rw [← hsplit, List.chain'_append] at hc
  obtain ⟨h1, _, h3⟩ := hc
  rw [List.chain'_append]
  refine ⟨h1, List.chain'_singleton a, ?_⟩
  intro y hy z hz
  have hyx : y ≤ x := h3 y hy x (by simp)
  have hz' : z = a := by
    simp only [List.head?_cons, Option.mem_some_iff] at hz
    exact hz.symm
  rw [hz']
  exact hyx.trans hxa

/-! ### The two branches of the recording phase -/

theorem dischargeRecord_load_changed (load t : ℚ) (s : BatteryState)
    (h : load ≠ s.previousLoad) :
    (dischargeRecord load t s).load = s.load ++ [load] := by
  unfold dischargeRecord
  rw [if_pos h]

theorem dischargeRecord_load_unchanged (load t : ℚ) (s : BatteryState)
    (h : ¬load ≠ s.previousLoad) :
    (dischargeRecord load t s).load = s.load := by
  unfold dischargeRecord
  rw [if_neg h]

theorem dischargeRecord_timeStamps_changed (load t : ℚ) (s : BatteryState)
    (h : load ≠ s.previousLoad) (hlast : s.timeStamps.getLast? = some s.lastSampleTime) :
    (dischargeRecord load t s).timeStamps = s.timeStamps ++ [t] := by
  unfold dischargeRecord
  rw [if_pos h]
  show s.timeStamps.set (s.timeStamps.length - 1) s.lastSampleTime ++ [t] = s.timeStamps ++ [t]
  rw [list_set_last_self _ _ hlast]

theorem dischargeRecord_timeStamps_unchanged (load t : ℚ) (s : BatteryState)
    (h : ¬load ≠ s.previousLoad) (hne : s.timeStamps ≠ []) :
    (dischargeRecord load t s).timeStamps = s.timeStamps.dropLast ++ [t] := by
  unfold dischargeRecord
  rw [if_neg h]
  show (if s.timeStamps = [] then s.timeStamps
        else s.timeStamps.set (s.timeStamps.length - 1) t) = _
  rw [if_neg hne, list_set_last_eq _ _ hne]

theorem dischargeRecord_timeStamps_getLast? (load t : ℚ) (s : BatteryState)
    (hne : s.timeStamps ≠ []) :
    (dischargeRecord load t s).timeStamps.getLast? = some t := by
  unfold dischargeRecord
  by_cases h : load ≠ s.previousLoad
  · rw [if_pos h]
    show (s.timeStamps.set (s.timeStamps.length - 1) s.lastSampleTime ++ [t]).getLast? = some t
    exact List.getLast?_concat _
  · rw [if_neg h]
    show (if s.timeStamps = [] then s.timeStamps
          else s.timeStamps.set (s.timeStamps.length - 1) t).getLast? = some t
    rw [if_neg hne]
    exact list_getLast?_set_last _ _ hne

/-- The recording phase preserves the load-history invariant whenever
the query time does not precede the previous sample time. -/
theorem dischargeRecord_inv (load t : ℚ) (s : BatteryState) (hinv : LoadHistoryInv s)
    (ht : s.lastSampleTime ≤ t) : LoadHistoryInv (dischargeRecord load t s) := by
  obtain ⟨hlen, hchain, hlast⟩ := hinv
  have hne : s.timeStamps ≠ [] := by
    intro e
    rw [e] at hlast
    exact Option.noConfusion hlast
  by_cases h : load ≠ s.previousLoad
  · refine ⟨?_, ?_, ?_⟩
    · rw [dischargeRecord_load_changed _ _ _ h, dischargeRecord_timeStamps_changed _ _ _ h hlast]
      simp only [List.length_append, List.length_cons, List.length_nil]
      omega
    · rw [dischargeRecord_timeStamps_changed _ _ _ h hlast]
      exact chain'_le_append_last _ _ _ hchain hlast ht
    · rw [dischargeRecord_timeStamps_changed _ _ _ h hlast, dischargeRecord_lastSampleTime]
      exact List.getLast?_concat _
  · have hpos : 0 < s.timeStamps.length := List.length_pos.mpr hne
    refine ⟨?_, ?_, ?_⟩
    · rw [dischargeRecord_load_unchanged _ _ _ h, dischargeRecord_timeStamps_unchanged _ _ _ h hne]
      simp only [List.length_append, List.length_dropLast, List.length_cons, List.length_nil]
      omega
    · rw [dischargeRecord_timeStamps_unchanged _ _ _ h hne]
      exact chain'_dropLast_concat _ _ _ hchain hlast ht
    · rw [dischargeRecord_timeStamps_unchanged _ _ _ h hne, dischargeRecord_lastSampleTime]
      exact List.getLast?_concat _

/-! ### Characterisation of one update call -/

theorem UpdateEnergySource_false_eq (expf : ℚ → ℚ) (i t : ℚ) (s : BatteryState) :
    UpdateEnergySource expf false i t s =
      if (CalculateRemainingEnergy expf i t s).remainingEnergyJ ≤
          s.lowBatteryTh * s.initialEnergyJ then
        { state := { CalculateRemainingEnergy expf i t s with lastUpdateTime := t },
          cancelled := true, notified := true, scheduled := false }
      else
        { state := { CalculateRemainingEnergy expf i t s with lastUpdateTime := t },
          cancelled := true, notified := false, scheduled := true } := by
  unfold UpdateEnergySource
  rw [if_neg Bool.false_ne_true]
  dsimp only
  rw [CalculateRemainingEnergy_lowBatteryTh, CalculateRemainingEnergy_initialEnergyJ]

theorem UpdateEnergySource_notified_iff (expf : ℚ → ℚ) (i t : ℚ) (s : BatteryState) :
    (UpdateEnergySource expf false i t s).notified = true ↔
      (CalculateRemainingEnergy expf i t s).remainingEnergyJ ≤
        s.lowBatteryTh * s.initialEnergyJ := by
  rw [UpdateEnergySource_false_eq]
  by_cases h : (CalculateRemainingEnergy expf i t s).remainingEnergyJ ≤
      s.lowBatteryTh * s.initialEnergyJ
  · rw [if_pos h]
    simpa using h
  · rw [if_neg h]
    simpa using h

theorem UpdateEnergySource_state_remainingEnergyJ (expf : ℚ → ℚ) (i t : ℚ)
    (s : BatteryState) :
    (UpdateEnergySource expf false i t s).state.remainingEnergyJ =
      (CalculateRemainingEnergy expf i t s).remainingEnergyJ := by
  rw [UpdateEnergySource_false_eq]
  split <;> rfl

theorem UpdateEnergySource_state_eq (expf : ℚ → ℚ) (i t : ℚ) (s : BatteryState) :
    (UpdateEnergySource expf false i t s).state =
      { CalculateRemainingEnergy expf i t s with lastUpdateTime := t } := by
  rw [UpdateEnergySource_false_eq]
  split <;> rfl

theorem UpdateEnergySource_not_notified_and_scheduled (expf : ℚ → ℚ) (finished : Bool)
    (i t : ℚ) (s : BatteryState) :
    ((UpdateEnergySource expf finished i t s).notified &&
      (UpdateEnergySource expf finished i t s).scheduled) = false := by
  cases finished
  · rw [UpdateEnergySource_false_eq]
    split <;> rfl
  · rfl

/-! ### Claim theorems -/

/-- Claim C9: if the simulation clock has already finished,
`UpdateEnergySource` returns immediately as a no-op: the whole state —
remaining energy, voltage, last update time, load history, memoized
alpha, drained capacity — is unchanged, the pending event is not
cancelled, no notification fires and nothing is scheduled. -/
theorem C9_update_noop_when_finished (expf : ℚ → ℚ) (i t : ℚ) (s : BatteryState) :
    UpdateEnergySource expf true i t s =
      { state := s, cancelled := false, notified := false, scheduled := false } := rfl

/-- Claim C2 (amended): an update fires the drained notification exactly
when the freshly computed remaining energy is at/below
`lowBatteryThresholdFraction * initialEnergyJ`; the voltage condition
`m_supplyVoltageV <= m_minVoltTh` fires the notification only inside
`DecreaseRemainingEnergy` (on the voltage stored by the previous
update), never on the update path itself. -/
theorem C2_depletion_trigger (expf : ℚ → ℚ) (i t e : ℚ) (s : BatteryState) :
    ((UpdateEnergySource expf false i t s).notified = true ↔
      (CalculateRemainingEnergy expf i t s).remainingEnergyJ ≤
        s.lowBatteryTh * s.initialEnergyJ) ∧
    ((DecreaseRemainingEnergy e s).2 = true ↔ s.supplyVoltageV ≤ s.minVoltTh) := by
  refine ⟨UpdateEnergySource_notified_iff expf i t s, ?_⟩
  show decide (s.supplyVoltageV ≤ s.minVoltTh) = true ↔ s.supplyVoltageV ≤ s.minVoltTh
  exact decide_eq_true_iff

/-- Claim C2 counterexample: an update that leaves the supply voltage
(4 V) at/below the threshold voltage (5 V) without firing the drained
notification — `UpdateEnergySource` never consults the voltage. -/
theorem C2_counterexample :
    (UpdateEnergySource expOne false 0 5 zeroLoadState).state.supplyVoltageV ≤
        (UpdateEnergySource expOne false 0 5 zeroLoadState).state.minVoltTh ∧
      (UpdateEnergySource expOne false 0 5 zeroLoadState).notified = false := by
  norm_num [UpdateEnergySource, CalculateRemainingEnergy, clampStep, dischargeRecord,
    calculatedAlpha, RvModelAFunction, GetVoltage, expOne, zeroLoadState,
    List.cons_ne_nil, Finset.sum_range_one]

/-- Claim C3 (amended): along the chain of periodic scheduled updates
the drained notification fires at most once, because an update that
notifies never reschedules the next periodic update; only later
on-demand updates can notify again. -/
theorem C3_periodic_at_most_once :
    (∀ (expf : ℚ → ℚ) (ticks : List (ℚ × ℚ)) (s : BatteryState),
        periodicNotifyCount expf ticks s ≤ 1) ∧
    (∀ (expf : ℚ → ℚ) (finished : Bool) (i t : ℚ) (s : BatteryState),
        ((UpdateEnergySource expf finished i t s).notified &&
          (UpdateEnergySource expf finished i t s).scheduled) = false) := by
  constructor
  · intro expf ticks
    induction ticks with
    | nil => intro s; exact Nat.zero_le 1
    | cons p rest ih =>
      intro s
      obtain ⟨i, t⟩ := p
      have hb := UpdateEnergySource_not_notified_and_scheduled expf false i t s
      simp only [periodicNotifyCount]
      cases hn : (UpdateEnergySource expf false i t s).notified with
      | false =>
        simp only [Bool.false_eq_true, if_false, Nat.zero_add]
        cases hs : (UpdateEnergySource expf false i t s).scheduled with
        | false => simp
        | true => simpa using ih _
      | true =>
        rw [hn] at hb
        have hs : (UpdateEnergySource expf false i t s).scheduled = false := by
          cases hsc : (UpdateEnergySource expf false i t s).scheduled
          · rfl
          · rw [hsc] at hb; exact absurd hb (by simp)
        rw [hs]
        simp
  · intro expf finished i t s
    exact UpdateEnergySource_not_notified_and_scheduled expf finished i t s

/-- Claim C3 counterexample: the drained notification can fire more than
once in an execution.  From a depleted state, an update notifies, and a
second (on-demand, e.g. from `GetRemainingEnergy`) update of the
resulting state notifies again — there is no depleted flag. -/
theorem C3_counterexample :
    (UpdateEnergySource expOne false 0 5
        { zeroLoadState with remainingEnergyJ := 0, lowBatteryTh := 1 }).notified = true ∧
    (UpdateEnergySource expOne false 0 6
        (UpdateEnergySource expOne false 0 5
          { zeroLoadState with remainingEnergyJ := 0, lowBatteryTh := 1 }).state).notified
      = true := by
  norm_num [UpdateEnergySource, CalculateRemainingEnergy, clampStep, dischargeRecord,
    calculatedAlpha, RvModelAFunction, GetVoltage, expOne, zeroLoadState,
    List.cons_ne_nil, Finset.sum_range_one]

/-- Claim C1 (amended): the update path — `CalculateRemainingEnergy`,
hence `UpdateEnergySource`, `GetRemainingEnergy`, `GetEnergyFraction` —
clamps the remaining energy at 0 and never leaves it negative, and it
is non-increasing whenever the computed energy delta is non-negative;
`IncreaseRemainingEnergy` with a non-negative argument preserves
non-negativity.  (The counterexample shows both exceptions forcing this
form: `DecreaseRemainingEnergy` performs no clamp, and strictly
positive current draw does not imply a non-negative delta, because the
pre-update supply voltage stored near the rated-capacity divergence of
the voltage curve can be negative, making an update increase the
remaining energy.) -/
theorem C1_clamped_update_monotone (expf : ℚ → ℚ) (finished : Bool) (i t e : ℚ)
    (s : BatteryState) :
    0 ≤ (CalculateRemainingEnergy expf i t s).remainingEnergyJ ∧
    (0 ≤ s.remainingEnergyJ →
      0 ≤ (UpdateEnergySource expf finished i t s).state.remainingEnergyJ) ∧
    (0 ≤ s.remainingEnergyJ → 0 ≤ energyDelta expf i t s →
      (CalculateRemainingEnergy expf i t s).remainingEnergyJ ≤ s.remainingEnergyJ) ∧
    (0 ≤ s.remainingEnergyJ → 0 ≤ e →
      0 ≤ (IncreaseRemainingEnergy e s).remainingEnergyJ) := by
  refine ⟨CalculateRemainingEnergy_remainingEnergyJ_nonneg expf i t s, ?_, ?_, ?_⟩
  · intro h0
    cases finished
    · rw [UpdateEnergySource_state_remainingEnergyJ]
      exact CalculateRemainingEnergy_remainingEnergyJ_nonneg expf i t s
    · exact h0
  · intro h0 hd
    rw [CalculateRemainingEnergy_remainingEnergyJ]
    unfold clampStep
    split
    · exact h0
    · show (dischargeRecord (i * 1000) t s).remainingEnergyJ - energyDelta expf i t s ≤
        s.remainingEnergyJ
      rw [dischargeRecord_remainingEnergyJ]
      linarith
  · intro h0 he
    show 0 ≤ s.remainingEnergyJ + e
    exact add_nonneg h0 he

/-- Claim C1 counterexample, refuting both clauses of the claim as
stated.  First, `DecreaseRemainingEnergy` subtracts without any clamp,
so a legal call (the argument 2 satisfies the
`NS_ASSERT (energyJ >= 0)`) drives the remaining energy to -1.
Second, under a strictly positive total current draw (1.2 A at both
updates) and with no replenishment call, the remaining energy strictly
increases between two consecutive updates: the first update (time 342)
stores the terminal voltage -15 V computed at drained capacity 1.9 Ah,
just below the 2 Ah rated capacity, so the second update (time 402)
computes the energy delta (8040 - 6840) * (-15) = -18000 J and adds
18000 J (72640 to 90640). -/
theorem C1_counterexample :
    (DecreaseRemainingEnergy 2
        { zeroLoadState with remainingEnergyJ := 1 }).1.remainingEnergyJ < 0 ∧
    ((0 : ℚ) < 1.2 ∧
      (UpdateEnergySource expOne false 1.2 342
          deepDischargeState).state.remainingEnergyJ <
        (UpdateEnergySource expOne false 1.2 402
          (UpdateEnergySource expOne false 1.2 342
            deepDischargeState).state).state.remainingEnergyJ) := by
  refine ⟨?_, by norm_num, ?_⟩
  · show (1 : ℚ) - 2 < 0
    norm_num
  · norm_num [UpdateEnergySource, CalculateRemainingEnergy, clampStep, dischargeRecord,
      calculatedAlpha, RvModelAFunction, GetVoltage, expOne, deepDischargeState,
      List.cons_ne_nil, Finset.sum_range_one]

/-- Claim C1 witness: the amended theorem applied at a concrete state
with non-negative remaining energy and non-negative energy delta. -/
theorem C1_witness :
    (0 ≤ zeroLoadState.remainingEnergyJ ∧ 0 ≤ energyDelta expOne 0 5 zeroLoadState ∧
      (0 : ℚ) ≤ 1) ∧
    0 ≤ (CalculateRemainingEnergy expOne 0 5 zeroLoadState).remainingEnergyJ ∧
    0 ≤ (UpdateEnergySource expOne false 0 5 zeroLoadState).state.remainingEnergyJ ∧
    (CalculateRemainingEnergy expOne 0 5 zeroLoadState).remainingEnergyJ ≤
      zeroLoadState.remainingEnergyJ ∧
    0 ≤ (IncreaseRemainingEnergy 1 zeroLoadState).remainingEnergyJ := by
  have h0 : (0 : ℚ) ≤ zeroLoadState.remainingEnergyJ := by norm_num [zeroLoadState]
  have hd : (0 : ℚ) ≤ energyDelta expOne 0 5 zeroLoadState := by
    norm_num [energyDelta, dischargeRecord, calculatedAlpha, RvModelAFunction, expOne,
      zeroLoadState, List.cons_ne_nil, Finset.sum_range_one]
  have h := C1_clamped_update_monotone expOne false 0 5 1 zeroLoadState
  exact ⟨⟨h0, hd, by norm_num⟩, h.1, h.2.1 h0, h.2.2.1 h0 hd, h.2.2.2 h0 (by norm_num)⟩

/-! ### Further preservation lemmas for the voltage-curve parameters -/

theorem dischargeRecord_eFull (load t : ℚ) (s : BatteryState) :
    (dischargeRecord load t s).eFull = s.eFull := by
  unfold dischargeRecord; split <;> rfl

theorem dischargeRecord_eNom (load t : ℚ) (s : BatteryState) :
    (dischargeRecord load t s).eNom = s.eNom := by
  unfold dischargeRecord; split <;> rfl

theorem dischargeRecord_eExp (load t : ℚ) (s : BatteryState) :
    (dischargeRecord load t s).eExp = s.eExp := by
  unfold dischargeRecord; split <;> rfl

theorem dischargeRecord_qRated (load t : ℚ) (s : BatteryState) :
    (dischargeRecord load t s).qRated = s.qRated := by
  unfold dischargeRecord; split <;> rfl

theorem dischargeRecord_qNom (load t : ℚ) (s : BatteryState) :
    (dischargeRecord load t s).qNom = s.qNom := by
  unfold dischargeRecord; split <;> rfl

theorem dischargeRecord_qExp (load t : ℚ) (s : BatteryState) :
    (dischargeRecord load t s).qExp = s.qExp := by
  unfold dischargeRecord; split <;> rfl

theorem dischargeRecord_internalResistance (load t : ℚ) (s : BatteryState) :
    (dischargeRecord load t s).internalResistance = s.internalResistance := by
  unfold dischargeRecord; split <;> rfl

theorem dischargeRecord_typCurrent (load t : ℚ) (s : BatteryState) :
    (dischargeRecord load t s).typCurrent = s.typCurrent := by
  unfold dischargeRecord; split <;> rfl

/-- Claim C4 (amended): whenever the computed energy delta
`(alpha(now) - alpha(lastUpdateTime)) * m_supplyVoltageV` (pre-update
voltage) does not exceed the remaining energy, exactly that delta is
removed by the update (otherwise the energy is clamped to 0 and less is
removed); in all cases the supply voltage stored by the update is the
one recomputed by `GetVoltage` from the post-subtraction state, and
`m_lastUpdateAlpha` is set to the newly computed alpha. -/
theorem C4_energy_delta_removed (expf : ℚ → ℚ) (i t : ℚ) (s : BatteryState) :
    (energyDelta expf i t s ≤ s.remainingEnergyJ →
      s.remainingEnergyJ - (CalculateRemainingEnergy expf i t s).remainingEnergyJ =
        energyDelta expf i t s) ∧
    (CalculateRemainingEnergy expf i t s).lastUpdateAlpha =
      (Discharge expf (i * 1000) t s).2 ∧
    (CalculateRemainingEnergy expf i t s).supplyVoltageV =
      GetVoltage expf (CalculateRemainingEnergy expf i t s) i := by
  refine ⟨?_, rfl, rfl⟩
  intro h
  rw [CalculateRemainingEnergy_remainingEnergyJ]
  unfold clampStep
  split
  · rename_i hlt
    rw [dischargeRecord_remainingEnergyJ] at hlt
    exact absurd hlt (not_lt.mpr h)
  · show s.remainingEnergyJ -
        ((dischargeRecord (i * 1000) t s).remainingEnergyJ - energyDelta expf i t s) =
      energyDelta expf i t s
    rw [dischargeRecord_remainingEnergyJ]
    ring

/-- Claim C4 counterexample: in the clamp branch the energy removed is
the whole remaining energy 1, not the computed delta 1000, so the
as-stated claim fails. -/
theorem C4_counterexample :
    clampState.remainingEnergyJ -
        (CalculateRemainingEnergy expOne 1 60 clampState).remainingEnergyJ ≠
      energyDelta expOne 1 60 clampState := by
  norm_num [CalculateRemainingEnergy, clampStep, dischargeRecord, calculatedAlpha,
    RvModelAFunction, GetVoltage, energyDelta, expOne, clampState,
    List.cons_ne_nil, Finset.sum_range_one]

/-- Claim C4 witness: the amended theorem applied at a concrete state
where the delta (0) does not exceed the remaining energy (10). -/
theorem C4_witness :
    energyDelta expOne 0 5 zeroLoadState ≤ zeroLoadState.remainingEnergyJ ∧
    zeroLoadState.remainingEnergyJ -
        (CalculateRemainingEnergy expOne 0 5 zeroLoadState).remainingEnergyJ =
      energyDelta expOne 0 5 zeroLoadState := by
  have hle : energyDelta expOne 0 5 zeroLoadState ≤ zeroLoadState.remainingEnergyJ := by
    norm_num [energyDelta, dischargeRecord, calculatedAlpha, RvModelAFunction, expOne,
      zeroLoadState, List.cons_ne_nil, Finset.sum_range_one]
  exact ⟨hle, (C4_energy_delta_removed expOne 0 5 zeroLoadState).1 hle⟩

/-- Claim C10: when `CalculateRemainingEnergy` takes the clamp branch
(remaining energy below the computed delta), it zeroes the remaining
energy but leaves `m_drainedCapacity` unchanged while still advancing
`m_lastUpdateAlpha` to the new alpha; the supply voltage stored by that
update is therefore computed by `GetVoltage` from the stale pre-clamp
drained capacity. -/
theorem C10_clamp_keeps_drainedCapacity (expf : ℚ → ℚ) (i t : ℚ) (s : BatteryState)
    (h : s.remainingEnergyJ < energyDelta expf i t s) :
    (CalculateRemainingEnergy expf i t s).drainedCapacity = s.drainedCapacity ∧
    (CalculateRemainingEnergy expf i t s).remainingEnergyJ = 0 ∧
    (CalculateRemainingEnergy expf i t s).lastUpdateAlpha =
      (Discharge expf (i * 1000) t s).2 ∧
    (CalculateRemainingEnergy expf i t s).supplyVoltageV = GetVoltage expf s i := by
  have hc : (dischargeRecord (i * 1000) t s).remainingEnergyJ < energyDelta expf i t s := by
    rw [dischargeRecord_remainingEnergyJ]
    exact h
  have hcl : clampStep (calculatedAlpha expf t (dischargeRecord (i * 1000) t s))
      (energyDelta expf i t s) (dischargeRecord (i * 1000) t s) =
      { dischargeRecord (i * 1000) t s with remainingEnergyJ := 0 } := by
    unfold clampStep
    rw [if_pos hc]
  refine ⟨?_, ?_, rfl, ?_⟩
  · rw [CalculateRemainingEnergy_drainedCapacity, hcl]
    show (dischargeRecord (i * 1000) t s).drainedCapacity = s.drainedCapacity
    exact dischargeRecord_drainedCapacity _ _ _
  · rw [CalculateRemainingEnergy_remainingEnergyJ, hcl]
  · rw [CalculateRemainingEnergy_supplyVoltageV, hcl]
    unfold GetVoltage
    dsimp only
    rw [dischargeRecord_drainedCapacity, dischargeRecord_eFull, dischargeRecord_eNom,
      dischargeRecord_eExp, dischargeRecord_qRated, dischargeRecord_qNom,
      dischargeRecord_qExp, dischargeRecord_internalResistance, dischargeRecord_typCurrent]

/-- Claim C10 witness: the theorem applied at a concrete state driven
into the clamp branch (remaining energy 1, computed delta 1000). -/
theorem C10_witness :
    clampState.remainingEnergyJ < energyDelta expOne 1 60 clampState ∧
    (CalculateRemainingEnergy expOne 1 60 clampState).drainedCapacity =
      clampState.drainedCapacity ∧
    (CalculateRemainingEnergy expOne 1 60 clampState).remainingEnergyJ = 0 ∧
    (CalculateRemainingEnergy expOne 1 60 clampState).supplyVoltageV =
      GetVoltage expOne clampState 1 := by
  have hlt : clampState.remainingEnergyJ < energyDelta expOne 1 60 clampState := by
    norm_num [energyDelta, dischargeRecord, calculatedAlpha, RvModelAFunction, expOne,
      clampState, List.cons_ne_nil, Finset.sum_range_one]
  have h := C10_clamp_keeps_drainedCapacity expOne 1 60 clampState hlt
  exact ⟨hlt, h.1, h.2.1, h.2.2.2⟩

/-- Claim C8: for every instantaneous current `i`, `GetVoltage` returns
exactly the spec's multi-zone discharge-curve formula
`V = E - R_internal * i` with
`E = E0 - K * Q_rated/(Q_rated - it) + A * exp(-B * it)`,
`A = E_full - E_exp`, `B = 3/Q_exp`,
`K = |(E_full - E_nom + A * (exp(-B * Q_nom) - 1)) * (Q_rated - Q_nom) / Q_nom|`
and `E0 = E_full + K + R_internal * I_typ - A`, where `it` is the
stored drained capacity. -/
theorem C8_voltage_formula (expf : ℚ → ℚ) (s : BatteryState) (i : ℚ) :
    GetVoltage expf s i = specCellVoltage expf s i := by
  unfold GetVoltage specCellVoltage
  simp only [neg_mul]

/-- The code's series term agrees with the spec's series term: the code
accumulates `beta*beta*m*m` where the spec writes `beta^2 m^2`. -/
theorem RvModelAFunction_eq_rvSpecA (expf : ℚ → ℚ) (t sk sk_1 beta : ℚ) :
    RvModelAFunction expf t sk sk_1 beta = rvSpecA expf t sk sk_1 beta := by
  unfold RvModelAFunction rvSpecA
  dsimp only
  congr 1
  congr 1
  refine Finset.sum_congr rfl ?_
  intro m _
  rw [show beta * beta * (m : ℚ) * (m : ℚ) = beta ^ 2 * (m : ℚ) ^ 2 from by ring]

/-- Claim C5 (amended): whenever at least one load change has been
recorded (more than one timestamp after the recording phase),
`Discharge (load, t)` returns
`alpha = sum over k of L_k * A(t, s_(k+1), s_k, beta)` with `A` exactly
the spec's 10-term series formula.  (In the single-timestamp case the
code instead multiplies `A (t, t, 0, beta)` by `m_load[0]`, an
out-of-range read of the empty load vector: see the counterexample.) -/
theorem C5_alpha_is_segment_sum (expf : ℚ → ℚ) (load t : ℚ) (s : BatteryState)
    (h : (dischargeRecord load t s).timeStamps.length ≠ 1) :
    (Discharge expf load t s).2 =
      Finset.sum (Finset.range ((dischargeRecord load t s).timeStamps.length - 1)) fun k =>
        (dischargeRecord load t s).load.getD k 0 *
          rvSpecA expf t ((dischargeRecord load t s).timeStamps.getD (k + 1) 0)
            ((dischargeRecord load t s).timeStamps.getD k 0) s.beta := by
  show calculatedAlpha expf t (dischargeRecord load t s) = _
  unfold calculatedAlpha
  rw [if_neg h, dischargeRecord_beta]
  exact Finset.sum_congr rfl fun k _ => by rw [RvModelAFunction_eq_rvSpecA]

/-- Claim C5 counterexample, at the only reachable single-timestamp
state (every load so far equal to the `-1` sentinel): the claim says
`alpha = load * A (t, t, 0, beta)`, but the code multiplies by
`m_load[0]`, an out-of-range read of the empty load vector (modelled as
0), so it returns 0 instead of `-1 * A (5, 5, 0, beta)`. -/
theorem C5_counterexample :
    (Discharge expOne (-1) 5 defaultLiIonState).2 ≠
      (-1) * rvSpecA expOne 5 5 0 defaultLiIonState.beta := by
  norm_num [Discharge, dischargeRecord, calculatedAlpha, RvModelAFunction, rvSpecA,
    expOne, defaultLiIonState]

/-- Claim C5 witness: the amended theorem applied to a state whose
recording phase leaves two timestamps. -/
theorem C5_witness :
    (dischargeRecord 0 5 zeroLoadState).timeStamps.length ≠ 1 ∧
    (Discharge expOne 0 5 zeroLoadState).2 =
      Finset.sum (Finset.range ((dischargeRecord 0 5 zeroLoadState).timeStamps.length - 1))
        fun k =>
          (dischargeRecord 0 5 zeroLoadState).load.getD k 0 *
            rvSpecA expOne 5 ((dischargeRecord 0 5 zeroLoadState).timeStamps.getD (k + 1) 0)
              ((dischargeRecord 0 5 zeroLoadState).timeStamps.getD k 0)
              zeroLoadState.beta := by
  have h : (dischargeRecord 0 5 zeroLoadState).timeStamps.length ≠ 1 := by
    norm_num [dischargeRecord, zeroLoadState, List.cons_ne_nil]
  exact ⟨h, C5_alpha_is_segment_sum expOne 0 5 zeroLoadState h⟩

/-- Claim C6: the recording phase of `Discharge` appends exactly one
load entry and one timestamp when the load changed, and otherwise
appends nothing and overwrites the last (open) timestamp with `t`; in
both cases, if the load-history invariant held before the call and `t`
is not earlier than the last sample time, then
`m_load.size () == m_timeStamps.size () - 1` still holds and the
timestamp sequence remains non-decreasing. -/
theorem C6_record_append_or_extend (load t : ℚ) (s : BatteryState)
    (hinv : LoadHistoryInv s) (ht : s.lastSampleTime ≤ t) :
    (load = s.previousLoad →
      (dischargeRecord load t s).load = s.load ∧
      (dischargeRecord load t s).timeStamps = s.timeStamps.dropLast ++ [t]) ∧
    (load ≠ s.previousLoad →
      (dischargeRecord load t s).load = s.load ++ [load] ∧
      (dischargeRecord load t s).timeStamps = s.timeStamps ++ [t]) ∧
    LoadHistoryInv (dischargeRecord load t s) := by
  obtain ⟨hlen, hchain, hlast⟩ := hinv
  have hne : s.timeStamps ≠ [] := by
    intro hnil
    rw [hnil] at hlast
    exact Option.noConfusion hlast
  refine ⟨?_, ?_, dischargeRecord_inv load t s ⟨hlen, hchain, hlast⟩ ht⟩
  · intro he
    have h' : ¬load ≠ s.previousLoad := fun hc => hc he
    exact ⟨dischargeRecord_load_unchanged load t s h',
      dischargeRecord_timeStamps_unchanged load t s h' hne⟩
  · intro hnel
    exact ⟨dischargeRecord_load_changed load t s hnel,
      dischargeRecord_timeStamps_changed load t s hnel hlast⟩

/-- Claim C6 witness: the theorem applied to the constructor state with
a first genuine load sample (the changed-load branch). -/
theorem C6_witness :
    LoadHistoryInv defaultLiIonState ∧ defaultLiIonState.lastSampleTime ≤ 5 ∧
    (1000 : ℚ) ≠ defaultLiIonState.previousLoad ∧
    (dischargeRecord 1000 5 defaultLiIonState).load = defaultLiIonState.load ++ [1000] ∧
    (dischargeRecord 1000 5 defaultLiIonState).timeStamps =
      defaultLiIonState.timeStamps ++ [5] ∧
    LoadHistoryInv (dischargeRecord 1000 5 defaultLiIonState) := by
  have hinv : LoadHistoryInv defaultLiIonState := ⟨rfl, List.chain'_singleton 0, rfl⟩
  have ht : defaultLiIonState.lastSampleTime ≤ 5 := by norm_num [defaultLiIonState]
  have hnel : (1000 : ℚ) ≠ defaultLiIonState.previousLoad := by norm_num [defaultLiIonState]
  have h := C6_record_append_or_extend 1000 5 defaultLiIonState hinv ht
  exact ⟨hinv, ht, hnel, (h.2.1 hnel).1, (h.2.1 hnel).2, h.2.2⟩

/-- The function `calculatedAlpha` only reads the load history and beta. -/
theorem calculatedAlpha_congr (expf : ℚ → ℚ) (t : ℚ) (a b : BatteryState)
    (h1 : a.timeStamps = b.timeStamps) (h2 : a.load = b.load) (h3 : a.beta = b.beta) :
    calculatedAlpha expf t a = calculatedAlpha expf t b := by
  unfold calculatedAlpha
  rw [h1, h2, h3]

/-- Claim C7: calling `GetRemainingEnergy` twice at the same simulated
time with the same total current returns the same value both times and
leaves the remaining energy unchanged: the second forced recomputation
records nothing new, produces the same alpha, and hence a zero energy
delta. -/
theorem C7_same_time_idempotent (expf : ℚ → ℚ) (i t : ℚ) (s : BatteryState)
    (hne : s.timeStamps ≠ []) :
    (UpdateEnergySource expf false i t
        (UpdateEnergySource expf false i t s).state).state.remainingEnergyJ =
      (UpdateEnergySource expf false i t s).state.remainingEnergyJ ∧
    (GetRemainingEnergy expf false i t (GetRemainingEnergy expf false i t s).2).1 =
      (GetRemainingEnergy expf false i t s).1 ∧
    (Discharge expf (i * 1000) t (UpdateEnergySource expf false i t s).state).2 =
      (Discharge expf (i * 1000) t s).2 := by
  have hstate := UpdateEnergySource_state_eq expf i t s
  have hprev : (UpdateEnergySource expf false i t s).state.previousLoad = i * 1000 := by
    rw [hstate]
    exact CalculateRemainingEnergy_previousLoad expf i t s
  have hts : (UpdateEnergySource expf false i t s).state.timeStamps =
      (dischargeRecord (i * 1000) t s).timeStamps := by
    rw [hstate]
    exact CalculateRemainingEnergy_timeStamps expf i t s
  have hload : (UpdateEnergySource expf false i t s).state.load =
      (dischargeRecord (i * 1000) t s).load := by
    rw [hstate]
    exact CalculateRemainingEnergy_load expf i t s
  have hbeta : (UpdateEnergySource expf false i t s).state.beta = s.beta := by
    rw [hstate]
    exact CalculateRemainingEnergy_beta expf i t s
  have hlastAlpha : (UpdateEnergySource expf false i t s).state.lastUpdateAlpha =
      calculatedAlpha expf t (dischargeRecord (i * 1000) t s) := by
    rw [hstate]
    exact CalculateRemainingEnergy_lastUpdateAlpha expf i t s
  have hulast : (UpdateEnergySource expf false i t s).state.timeStamps.getLast? = some t := by
    rw [hts]
    exact dischargeRecord_timeStamps_getLast? (i * 1000) t s hne
  have hunne : (UpdateEnergySource expf false i t s).state.timeStamps ≠ [] := by
    intro e
    rw [e] at hulast
    exact Option.noConfusion hulast
  have hb2 : ¬(i * 1000 ≠ (UpdateEnergySource expf false i t s).state.previousLoad) := by
    rw [hprev]
    exact not_not_intro rfl
  have hts2 : (dischargeRecord (i * 1000) t
      (UpdateEnergySource expf false i t s).state).timeStamps =
      (UpdateEnergySource expf false i t s).state.timeStamps := by
    rw [dischargeRecord_timeStamps_unchanged _ _ _ hb2 hunne]
    exact List.dropLast_append_getLast? t hulast
  have halpha : calculatedAlpha expf t
      (dischargeRecord (i * 1000) t (UpdateEnergySource expf false i t s).state) =
      calculatedAlpha expf t (dischargeRecord (i * 1000) t s) := by
    apply calculatedAlpha_congr
    · rw [hts2, hts]
    · rw [dischargeRecord_load_unchanged _ _ _ hb2, hload]
    · rw [dischargeRecord_beta, dischargeRecord_beta, hbeta]
  have hdelta : energyDelta expf i t (UpdateEnergySource expf false i t s).state = 0 := by
    unfold energyDelta
    rw [halpha, hlastAlpha, sub_self, zero_mul]
  have h0 : 0 ≤ (UpdateEnergySource expf false i t s).state.remainingEnergyJ := by
    rw [UpdateEnergySource_state_remainingEnergyJ]
    exact CalculateRemainingEnergy_remainingEnergyJ_nonneg expf i t s
  have hmain : (UpdateEnergySource expf false i t
      (UpdateEnergySource expf false i t s).state).state.remainingEnergyJ =
      (UpdateEnergySource expf false i t s).state.remainingEnergyJ := by
    rw [UpdateEnergySource_state_remainingEnergyJ, CalculateRemainingEnergy_remainingEnergyJ,
      hdelta]
    unfold clampStep
    split
    · rename_i hlt
      rw [dischargeRecord_remainingEnergyJ] at hlt
      exact absurd hlt (not_lt.mpr h0)
    · show (dischargeRecord (i * 1000) t
          (UpdateEnergySource expf false i t s).state).remainingEnergyJ - 0 =
        (UpdateEnergySource expf false i t s).state.remainingEnergyJ
      rw [dischargeRecord_remainingEnergyJ, sub_zero]
  exact ⟨hmain, hmain, halpha⟩

/-- Claim C7 witness: the theorem applied at a concrete state with a
non-empty timestamp vector. -/
theorem C7_witness :
    zeroLoadState.timeStamps ≠ [] ∧
    (UpdateEnergySource expOne false 0 5
        (UpdateEnergySource expOne false 0 5 zeroLoadState).state).state.remainingEnergyJ =
      (UpdateEnergySource expOne false 0 5 zeroLoadState).state.remainingEnergyJ ∧
    (GetRemainingEnergy expOne false 0 5
        (GetRemainingEnergy expOne false 0 5 zeroLoadState).2).1 =
      (GetRemainingEnergy expOne false 0 5 zeroLoadState).1 := by
  have hne : zeroLoadState.timeStamps ≠ [] := by
    show ([0, 0] : List ℚ) ≠ []
    exact List.cons_ne_nil _ _
  have h := C7_same_time_idempotent expOne 0 5 zeroLoadState hne
  exact ⟨hne, h.1, h.2.1⟩
